import Mathlib

/-!
Verification development for `src/windows/scripts/extract_kernels.py`.

The script extracts `ntoskrnl.exe` from Windows ISO images in two hops
(ISO → intermediate container → kernel executable), using an external `7z`
tool, a temporary working directory per ISO, and a driver loop over a static
catalog (`NTOSKRNL_MAP`).

The embedding below is a shallow one: the external world (filesystem tests,
`subprocess.Popen`, `tempfile.mkdtemp`, `shutil.rmtree`, `shutil.move`) is an
oracle record `Env`, and each Python function is translated into a pure Lean
function over that oracle.  Console output and filesystem effects are recorded
as structured events so that theorems can talk about what the run did.
-/

/-- Python exception values that can be raised while the script runs:
`exception m` models `raise Exception(m)` in `main`, `oserror m` models an
`OSError`-family error raised by a library call (`subprocess.Popen` when the
executable is absent, `shutil.move`, `shutil.rmtree`). -/
inductive PyExc where
  | exception (msg : String)
  | oserror (msg : String)
  deriving DecidableEq

/-- Console diagnostics printed by `TemporaryDirectory.cleanup`
(lines 110 and 116 of the script): `cleanupError d` models
`print('ERROR: ... while cleaning up <d>')` and `implicitCleanup d` models
`print('Implicitly cleaning up <d>')`. -/
inductive ConsoleMsg where
  | cleanupError (dirName : String)
  | implicitCleanup (dirName : String)
  deriving DecidableEq

/-- Splits a character list at the last occurrence of `c`:
`splitOnLast c l = some (pre, post)` when `l = pre ++ [c] ++ post` and `c`
does not occur in `post`; `none` when `c` does not occur in `l`. -/
def splitOnLast (c : Char) : List Char → Option (List Char × List Char)
  | [] => none
  | x :: xs =>
    match splitOnLast c xs with
    | some (pre, post) => some (x :: pre, post)
    | none => if x = c then some ([], xs) else none

/-- Model of `os.path.split` for the slash-separated relative paths the
script manipulates: splits off the final path segment. -/
def pathSplit (p : String) : String × String :=
  match splitOnLast '/' p.data with
  | some (d, b) => (String.mk d, String.mk b)
  | none => ("", p)

/-- Model of `os.path.splitext`: splits off the extension at the last dot of
the final path segment, except when that segment starts with the dot. -/
def splitext (p : String) : String × String :=
  match splitOnLast '.' (pathSplit p).2.data with
  | some (stem, ext) =>
    if stem = [] then (p, "")
    else ((if (pathSplit p).1 = "" then "" else (pathSplit p).1 ++ "/") ++ String.mk stem,
          "." ++ String.mk ext)
  | none => (p, "")

/-- Model of `os.path.join` for the relative-path uses in the script. -/
def joinPath (a b : String) : String :=
  if a = "" then b else a ++ "/" ++ b

/-- The static catalog (lines 59-72): ISO file name, path of the intermediate
container inside the ISO, and path of `ntoskrnl.exe` inside that container,
in the insertion order of the Python dict literal. -/
def NTOSKRNL_MAP : List (String × String × String) :=
  [ ("en_windows_xp_professional_with_service_pack_3_x86_cd_x14-80428.iso",
      joinPath ("I386") ("NTOSKRNL.EX_"),
      "ntoskrnl.exe"),
    ("en_windows_7_enterprise_with_sp1_x64_dvd_u_677651.iso",
      joinPath ("sources") ("install.wim"),
      joinPath ("Windows") (joinPath ("System32") ("ntoskrnl.exe"))),
    ("en_windows_8_1_enterprise_x64_dvd_2971902.iso",
      joinPath ("sources") ("install.wim"),
      joinPath ("Windows") (joinPath ("System32") ("ntoskrnl.exe"))),
    ("en_windows_10_enterprise_version_1703_updated_march_2017_x64_dvd_10189290.iso",
      joinPath ("sources") ("install.wim"),
      joinPath ("Windows") (joinPath ("System32") ("ntoskrnl.exe")))]

/-- State of a `TemporaryDirectory` object (lines 76-116): `name` is the
directory path returned by `tempfile.mkdtemp` (`none` models the transient
`self.name = None`), `closed` is the `_closed` flag. -/
structure TemporaryDirectory where
  name : Option String
  closed : Bool
  deriving DecidableEq

/-- Result of one `TemporaryDirectory.cleanup` call: the updated object
state, the console lines it printed, whether it called `shutil.rmtree`, and
whether that call removed the directory. -/
structure CleanupResult where
  state : TemporaryDirectory
  output : List ConsoleMsg
  attempted : Bool
  removed : Bool
  deriving DecidableEq

/-- Model of `TemporaryDirectory.cleanup` (lines 105-116).  `rm d` tells
whether `shutil.rmtree d` succeeds; when it fails, the `except` branch prints
an error and returns, leaving `_closed` untouched.  The guard
`if self.name and not self._closed` reads Python truthiness: `None` and the
empty string are falsy. -/
def TemporaryDirectory.cleanup (rm : String → Bool) (self : TemporaryDirectory)
    (warn : Bool) : CleanupResult :=
  match self.name with
  | some nm =>
    if nm ≠ "" ∧ self.closed = false then
      if rm nm then
        ⟨⟨some nm, true⟩, if warn then [ConsoleMsg.implicitCleanup nm] else [], true, true⟩
      else
        ⟨self, [ConsoleMsg.cleanupError nm], true, false⟩
    else ⟨self, [], false, false⟩
  | none => ⟨self, [], false, false⟩

/-- The oracle for everything outside the script: command-line arguments,
`os.path.isdir` / `os.path.isfile` / `os.path.realpath` / `os.getcwd`,
the subprocess layer (`popenRun args cwd` is the outcome of
`Popen(args, cwd=cwd)` + `communicate()`: an exception when the launch fails,
otherwise the pair `(returncode, stderr)`), the names `tempfile.mkdtemp`
hands out (indexed by how many directories were created so far), whether
`shutil.rmtree` succeeds on a given directory, and whether `shutil.move`
raises (`some e`) or succeeds (`none`). -/
structure Env where
  isoDirArg : String
  outputDirArg : String
  isdir : String → Bool
  isfile : String → Bool
  realpath : String → String
  cwd : String
  popenRun : List String → String → Except PyExc (Int × String)
  mkdtempName : Nat → String
  rmtreeOk : String → Bool
  move : String → String → Option PyExc

/-- Model of `seven_zip_extract` (lines 131-145): builds
`['7z', 'e', source] + files`, defaults `dest` to the current working
directory, and runs the subprocess with `cwd=dest`, returning
`(proc.returncode, stderr)`. -/
def seven_zip_extract (env : Env) (source : String) (files : List String)
    (dest : Option String) : Except PyExc (Int × String) :=
  env.popenRun (["7z", "e", source] ++ files) (dest.getD env.cwd)

/-- Observable events of one run: skip lines, workspace acquisition,
the per-ISO progress line, each invocation of the extraction primitive,
the two failure lines, the `shutil.move` call, cleanup output, and the
final success line of an entry. -/
inductive Event where
  | skipNotFound (iso : String)
  | mkdtempEv (dirName : String)
  | extracting (iso : String)
  | extractCall (source : String) (files : List String) (dest : String)
  | hop1Fail (container : String) (iso : String) (stderrText : String)
  | hop2Fail (containerName : String) (stderrText : String)
  | moved (src : String) (dst : String)
  | cleanupOut (msg : ConsoleMsg)
  | success (iso : String)
  deriving DecidableEq

/-- Everything a single iteration of `main`'s `for` loop did for one catalog
entry: its events in order, the artifacts `shutil.move` placed in the output
directory, the workspaces acquired and the ones actually removed again, and
the exception (if any) that escaped the iteration. -/
structure EntryResult where
  entry : String × String × String
  events : List Event
  artifacts : List String
  workspacesCreated : List String
  workspacesRemoved : List String
  exc : Option PyExc
  deriving DecidableEq

/-- The body of the `with TemporaryDirectory() as temp_dir:` block in `main`
(lines 170-195): hop 1 extracts the container from the ISO and aborts on
non-empty stderr; hop 2 extracts the kernel from the container and aborts on
non-zero return code; then `shutil.move` renames
`temp_dir/ntoskrnl.exe` to `output_dir/<iso stem>_ntoskrnl.exe`.
Returns the events, the artifacts created, and the control-flow exit of the
block: `Except.error e` for an escaping exception, `Except.ok false` for a
`continue`, `Except.ok true` for running off the end. -/
def attemptBody (env : Env) (output_dir iso iso_path container krnl temp_dir : String) :
    List Event × List String × Except PyExc Bool :=
  let ev0 : List Event :=
    [Event.extracting iso, Event.extractCall iso_path [container] temp_dir]
  match seven_zip_extract env iso_path [container] (some temp_dir) with
  | Except.error e => (ev0, [], Except.error e)
  | Except.ok (_, stderr1) =>
    if stderr1 ≠ "" then
      (ev0 ++ [Event.hop1Fail container iso stderr1], [], Except.ok false)
    else
      let container_name := (pathSplit container).2
      let container_path := joinPath temp_dir container_name
      let ev1 := ev0 ++ [Event.extractCall container_path [krnl] temp_dir]
      match seven_zip_extract env container_path [krnl] (some temp_dir) with
      | Except.error e => (ev1, [], Except.error e)
      | Except.ok (returncode2, stderr2) =>
        if returncode2 ≠ 0 then
          (ev1 ++ [Event.hop2Fail container_name stderr2], [], Except.ok false)
        else
          let iso_name := (splitext iso).1
          let src := joinPath temp_dir ("ntoskrnl.exe")
          let dst := joinPath output_dir (iso_name ++ "_ntoskrnl.exe")
          match env.move src dst with
          | some e => (ev1, [], Except.error e)
          | none => (ev1 ++ [Event.moved src dst], [dst], Except.ok true)

/-- One iteration of `main`'s `for` loop (lines 163-197) for one catalog
entry, where `n` counts the workspaces acquired so far (it indexes the
`mkdtemp` oracle).  If the ISO file is absent, print the skip line and
continue.  Otherwise acquire a `TemporaryDirectory`, run the `with` body,
and — as the `with` statement guarantees — call `cleanup` on *every* exit of
the body before either printing the success line, continuing, or re-raising
the body's exception. -/
def processIso (env : Env) (iso_dir output_dir : String) (n : Nat)
    (entry : String × String × String) : EntryResult :=
  let iso := entry.1
  let container := entry.2.1
  let krnl := entry.2.2
  let iso_path := joinPath iso_dir iso
  if env.isfile iso_path then
    let tdName := env.mkdtempName n
    let td : TemporaryDirectory := ⟨some tdName, false⟩
    let body := attemptBody env output_dir iso iso_path container krnl tdName
    let cr := TemporaryDirectory.cleanup env.rmtreeOk td false
    let evs := Event.mkdtempEv tdName :: body.1 ++ cr.output.map Event.cleanupOut
    let removed := if cr.removed then [tdName] else []
    match body.2.2 with
    | Except.error e => ⟨entry, evs, body.2.1, [tdName], removed, some e⟩
    | Except.ok true => ⟨entry, evs ++ [Event.success iso], body.2.1, [tdName], removed, none⟩
    | Except.ok false => ⟨entry, evs, body.2.1, [tdName], removed, none⟩
  else
    ⟨entry, [Event.skipNotFound iso], [], [], [], none⟩

/-- The `for iso, (container, krnl) in NTOSKRNL_MAP.items():` loop of `main`,
folded over an explicit catalog list: each entry is processed in order, and
an exception escaping one iteration aborts the whole loop (there is no
`try`/`except` in `main`), leaving the later entries unattempted. -/
def runEntries (env : Env) (iso_dir output_dir : String) :
    List (String × String × String) → Nat → List EntryResult × Option PyExc
  | [], _ => ([], none)
  | e :: es, n =>
    let r := processIso env iso_dir output_dir n e
    match r.exc with
    | some x => ([r], some x)
    | none =>
      let rest := runEntries env iso_dir output_dir es (n + r.workspacesCreated.length)
      (r :: rest.1, rest.2)

/-- Message of the `raise Exception` on line 154. -/
def isoDirErrMsg (s : String) : String := s ++ " is not a valid ISO directory"

/-- Message of the `raise Exception` on line 158. -/
def outputDirErrMsg (s : String) : String := s ++ " is not a valid output directory"

/-- Model of `main` (lines 148-197): validate the two directories (raising
before any entry is looked at), canonicalise them with `os.path.realpath`,
then drive the loop over `NTOSKRNL_MAP`.  The result is the list of
per-entry results for the entries that were reached, plus the exception that
terminated `main` early, if any. -/
def runMain (env : Env) : List EntryResult × Option PyExc :=
  if env.isdir env.isoDirArg = false then
    ([], some (PyExc.exception (isoDirErrMsg env.isoDirArg)))
  else if env.isdir env.outputDirArg = false then
    ([], some (PyExc.exception (outputDirErrMsg env.outputDirArg)))
  else
    runEntries env (env.realpath env.isoDirArg) (env.realpath env.outputDirArg) NTOSKRNL_MAP 0

/-- Recogniser for extraction-primitive invocations among the events. -/
def Event.isExtractCall : Event → Bool
  | Event.extractCall _ _ _ => true
  | _ => false

/-- Number of extraction-primitive invocations recorded in an event list. -/
def countExtractCalls (l : List Event) : Nat :=
  l.countP Event.isExtractCall

/-- The first catalog entry (Windows XP), used to instantiate theorems. -/
def xpEntry : String × String × String :=
  ("en_windows_xp_professional_with_service_pack_3_x86_cd_x14-80428.iso",
   joinPath ("I386") ("NTOSKRNL.EX_"),
   "ntoskrnl.exe")

/-- An environment in which every external operation succeeds: both
directories are valid, every ISO file is present, `7z` runs cleanly with
empty stderr, and `rmtree` and `move` succeed. -/
def envAllOk : Env :=
  ⟨"in", "out", fun _ => true, fun _ => true, fun s => s, "/cwd",
   fun _ _ => Except.ok (0, ""), fun n => "/tmp/ws" ++ toString n,
   fun _ => true, fun _ _ => none⟩

/-- Like `envAllOk` except that every `7z` invocation reports a diagnostic on
stderr while still exiting with status 0. -/
def envHop1Fail : Env :=
  ⟨"in", "out", fun _ => true, fun _ => true, fun s => s, "/cwd",
   fun _ _ => Except.ok (0, "unexpected end of archive"), fun n => "/tmp/ws" ++ toString n,
   fun _ => true, fun _ _ => none⟩

/-- Like `envAllOk` except that every `shutil.move` raises. -/
def envMoveFail : Env :=
  ⟨"in", "out", fun _ => true, fun _ => true, fun s => s, "/cwd",
   fun _ _ => Except.ok (0, ""), fun n => "/tmp/ws" ++ toString n,
   fun _ => true, fun _ _ => some (PyExc.oserror ("move failed"))⟩

/-- Like `envAllOk` except that the `7z` executable is absent, so every
subprocess launch raises. -/
def envNo7z : Env :=
  ⟨"in", "out", fun _ => true, fun _ => true, fun s => s, "/cwd",
   fun _ _ => Except.error (PyExc.oserror ("No such file or directory: 7z")),
   fun n => "/tmp/ws" ++ toString n, fun _ => true, fun _ _ => none⟩

/-- Like `envAllOk` except that every `shutil.rmtree` fails. -/
def envRmFail : Env :=
  ⟨"in", "out", fun _ => true, fun _ => true, fun s => s, "/cwd",
   fun _ _ => Except.ok (0, ""), fun n => "/tmp/ws" ++ toString n,
   fun _ => false, fun _ _ => none⟩

/-- C6: for a catalog entry whose resolved ISO path is not an existing file,
the iteration emits exactly the not-found skip outcome — no workspace is
acquired, the extraction primitive is never invoked, no artifact is created,
no exception escapes — and the driver goes on to process the remaining
entries unchanged. -/
theorem missing_archive_skipped
    (env : Env) (iso_dir output_dir : String) (n : Nat) (iso container krnl : String)
    (rest : List (String × String × String))
    (hfile : env.isfile (joinPath iso_dir iso) = false) :
    processIso env iso_dir output_dir n (iso, container, krnl) =
      ⟨(iso, container, krnl), [Event.skipNotFound iso], [], [], [], none⟩ ∧
    runEntries env iso_dir output_dir ((iso, container, krnl) :: rest) n =
      ((⟨(iso, container, krnl), [Event.skipNotFound iso], [], [], [], none⟩ : EntryResult) ::
         (runEntries env iso_dir output_dir rest n).1,
       (runEntries env iso_dir output_dir rest n).2) := by
  have h1 : processIso env iso_dir output_dir n (iso, container, krnl) =
      ⟨(iso, container, krnl), [Event.skipNotFound iso], [], [], [], none⟩ := by
    simp [processIso, hfile]
  refine ⟨h1, ?_⟩
  simp [runEntries, h1]

/-- C6 witness: instantiation at a concrete environment in which no ISO file
exists. -/
theorem missing_archive_skipped_witness :
    processIso ⟨"in", "out", fun _ => true, fun _ => false, fun s => s, "/cwd",
        fun _ _ => Except.ok (0, ""), fun n => "/tmp/ws" ++ toString n,
        fun _ => true, fun _ _ => none⟩ ("in") ("out") 0 xpEntry =
      ⟨xpEntry, [Event.skipNotFound (xpEntry.1)], [], [], [], none⟩ :=
  (missing_archive_skipped _ ("in") ("out") 0 xpEntry.1 xpEntry.2.1 xpEntry.2.2 [] rfl).1

/-- C7: if the ISO directory or the output directory is not an existing
directory, `main` raises a descriptive exception before the loop starts:
the run produces no entry results at all (so no entry is examined, the
extraction primitive is never invoked and no workspace is created), and the
exception names the offending directory. -/
theorem invalid_directories_fatal
    (env : Env)
    (h : env.isdir env.isoDirArg = false ∨ env.isdir env.outputDirArg = false) :
    (runMain env).1 = [] ∧
    ((runMain env).2 = some (PyExc.exception (isoDirErrMsg env.isoDirArg)) ∨
     (runMain env).2 = some (PyExc.exception (outputDirErrMsg env.outputDirArg))) := by
  rcases h with h | h
  · simp [runMain, h]
  · by_cases hin : env.isdir env.isoDirArg = false
    · simp [runMain, hin]
    · simp [runMain, hin, h]

/-- C7 witness: instantiation at a concrete environment whose ISO directory
is invalid. -/
theorem invalid_directories_fatal_witness :
    (runMain ⟨"in", "out", fun _ => false, fun _ => true, fun s => s, "/cwd",
        fun _ _ => Except.ok (0, ""), fun n => "/tmp/ws" ++ toString n,
        fun _ => true, fun _ _ => none⟩).1 = [] ∧
    ((runMain ⟨"in", "out", fun _ => false, fun _ => true, fun s => s, "/cwd",
        fun _ _ => Except.ok (0, ""), fun n => "/tmp/ws" ++ toString n,
        fun _ => true, fun _ _ => none⟩).2 =
          some (PyExc.exception (isoDirErrMsg ("in"))) ∨
     (runMain ⟨"in", "out", fun _ => false, fun _ => true, fun s => s, "/cwd",
        fun _ _ => Except.ok (0, ""), fun n => "/tmp/ws" ++ toString n,
        fun _ => true, fun _ _ => none⟩).2 =
          some (PyExc.exception (outputDirErrMsg ("out")))) :=
  invalid_directories_fatal _ (Or.inl rfl)

/-- C1: for an entry whose ISO file exists, exactly one workspace is
acquired for the attempt, and — because the `with` statement runs `cleanup`
on every control-flow exit of the body (normal completion, either `continue`,
or an escaping exception) — that workspace is removed again whatever the
body did, provided the recursive deletion itself succeeds; so after the
entry the directory no longer exists.  The statement quantifies over every
environment, hence over all four exit paths at once. -/
theorem workspace_removed_on_all_exits
    (env : Env) (iso_dir output_dir : String) (n : Nat) (iso container krnl : String)
    (hfile : env.isfile (joinPath iso_dir iso) = true)
    (hnm : env.mkdtempName n ≠ "")
    (hrm : env.rmtreeOk (env.mkdtempName n) = true) :
    (processIso env iso_dir output_dir n (iso, container, krnl)).workspacesCreated =
      [env.mkdtempName n] ∧
    (processIso env iso_dir output_dir n (iso, container, krnl)).workspacesRemoved =
      [env.mkdtempName n] := by
  have hcr : TemporaryDirectory.cleanup env.rmtreeOk ⟨some (env.mkdtempName n), false⟩ false =
      ⟨⟨some (env.mkdtempName n), true⟩, [], true, true⟩ := by
    simp [TemporaryDirectory.cleanup, hnm, hrm]
  rcases hb : (attemptBody env output_dir iso (joinPath iso_dir iso) container krnl
      (env.mkdtempName n)).2.2 with e | b
  · simp [processIso, hfile, hcr, hb]
  · cases b <;> simp [processIso, hfile, hcr, hb]

/-- C1 witness: with everything succeeding, the single workspace acquired for
the first catalog entry is removed again. -/
theorem workspace_removed_on_all_exits_witness :
    (processIso envAllOk ("in") ("out") 0 xpEntry).workspacesCreated =
      [envAllOk.mkdtempName 0] ∧
    (processIso envAllOk ("in") ("out") 0 xpEntry).workspacesRemoved =
      [envAllOk.mkdtempName 0] :=
  workspace_removed_on_all_exits envAllOk ("in") ("out") 0 xpEntry.1 xpEntry.2.1 xpEntry.2.2
    rfl (by decide) rfl

lemma countP_cleanupOut (l : List ConsoleMsg) :
    List.countP Event.isExtractCall (l.map Event.cleanupOut) = 0 := by
  rw [List.countP_eq_zero]
  intro a ha
  rcases List.mem_map.1 ha with ⟨m, _, rfl⟩
  simp [Event.isExtractCall]

/-- C2: hop-1 failure is decided solely by the diagnostic text.  If the first
`7z` call returns non-empty stderr — whatever its status code `rc1` — the
entry is skipped: the extraction primitive is invoked exactly once (hop 2
never runs), no artifact is created, no exception escapes, and the hop-1
failure line is printed.  If the stderr is empty, the orchestrator goes on to
hop 2 (a second extraction call happens) even though `rc1` is unconstrained,
in particular when it is non-zero. -/
theorem hop1_skip_decided_by_diagnostic
    (env : Env) (iso_dir output_dir : String) (n : Nat) (iso container krnl : String)
    (rc1 : Int) (s1 : String)
    (hfile : env.isfile (joinPath iso_dir iso) = true)
    (h1 : env.popenRun ["7z", "e", joinPath iso_dir iso, container] (env.mkdtempName n) =
      Except.ok (rc1, s1)) :
    (s1 ≠ "" →
      countExtractCalls (processIso env iso_dir output_dir n (iso, container, krnl)).events
          = 1 ∧
      (processIso env iso_dir output_dir n (iso, container, krnl)).artifacts = [] ∧
      (processIso env iso_dir output_dir n (iso, container, krnl)).exc = none ∧
      Event.hop1Fail container iso s1 ∈
        (processIso env iso_dir output_dir n (iso, container, krnl)).events) ∧
    (s1 = "" →
      countExtractCalls (processIso env iso_dir output_dir n (iso, container, krnl)).events
          = 2) := by
  have hsz : seven_zip_extract env (joinPath iso_dir iso) [container]
      (some (env.mkdtempName n)) = Except.ok (rc1, s1) := by
    simp [seven_zip_extract, h1]
  constructor
  · intro hs
    have hbody : attemptBody env output_dir iso (joinPath iso_dir iso) container krnl
        (env.mkdtempName n) =
        ([Event.extracting iso,
          Event.extractCall (joinPath iso_dir iso) [container] (env.mkdtempName n),
          Event.hop1Fail container iso s1], [], Except.ok false) := by
      simp [attemptBody, hsz, hs]
    simp [processIso, hfile, hbody, countExtractCalls, List.countP_cons,
      List.countP_append, countP_cleanupOut, Event.isExtractCall]
  · intro hs
    subst hs
    rcases hz2 : seven_zip_extract env
        (joinPath (env.mkdtempName n) ((pathSplit container).2)) [krnl]
        (some (env.mkdtempName n)) with e2 | p2
    · have hbody : attemptBody env output_dir iso (joinPath iso_dir iso) container krnl
          (env.mkdtempName n) =
          ([Event.extracting iso,
            Event.extractCall (joinPath iso_dir iso) [container] (env.mkdtempName n),
            Event.extractCall (joinPath (env.mkdtempName n) ((pathSplit container).2))
              [krnl] (env.mkdtempName n)], [], Except.error e2) := by
        simp [attemptBody, hsz, hz2]
      simp [processIso, hfile, hbody, countExtractCalls, List.countP_cons,
        List.countP_append, countP_cleanupOut, Event.isExtractCall]
    · obtain ⟨rc2, s2⟩ := p2
      by_cases h0 : rc2 = 0
      · subst h0
        rcases hmv : env.move (joinPath (env.mkdtempName n) ("ntoskrnl.exe"))
            (joinPath output_dir ((splitext iso).1 ++ "_ntoskrnl.exe")) with _ | e3
        · have hbody : attemptBody env output_dir iso (joinPath iso_dir iso) container krnl
              (env.mkdtempName n) =
              ([Event.extracting iso,
                Event.extractCall (joinPath iso_dir iso) [container] (env.mkdtempName n),
                Event.extractCall (joinPath (env.mkdtempName n) ((pathSplit container).2))
                  [krnl] (env.mkdtempName n),
                Event.moved (joinPath (env.mkdtempName n) ("ntoskrnl.exe"))
                  (joinPath output_dir ((splitext iso).1 ++ "_ntoskrnl.exe"))],
               [joinPath output_dir ((splitext iso).1 ++ "_ntoskrnl.exe")],
               Except.ok true) := by
            simp [attemptBody, hsz, hz2, hmv]
          simp [processIso, hfile, hbody, countExtractCalls, List.countP_cons,
            List.countP_append, countP_cleanupOut, Event.isExtractCall]
        · have hbody : attemptBody env output_dir iso (joinPath iso_dir iso) container krnl
              (env.mkdtempName n) =
              ([Event.extracting iso,
                Event.extractCall (joinPath iso_dir iso) [container] (env.mkdtempName n),
                Event.extractCall (joinPath (env.mkdtempName n) ((pathSplit container).2))
                  [krnl] (env.mkdtempName n)], [], Except.error e3) := by
            simp [attemptBody, hsz, hz2, hmv]
          simp [processIso, hfile, hbody, countExtractCalls, List.countP_cons,
            List.countP_append, countP_cleanupOut, Event.isExtractCall]
      · have hbody : attemptBody env output_dir iso (joinPath iso_dir iso) container krnl
            (env.mkdtempName n) =
            ([Event.extracting iso,
              Event.extractCall (joinPath iso_dir iso) [container] (env.mkdtempName n),
              Event.extractCall (joinPath (env.mkdtempName n) ((pathSplit container).2))
                [krnl] (env.mkdtempName n),
              Event.hop2Fail ((pathSplit container).2) s2], [], Except.ok false) := by
          simp [attemptBody, hsz, hz2, h0]
        simp [processIso, hfile, hbody, countExtractCalls, List.countP_cons,
          List.countP_append, countP_cleanupOut, Event.isExtractCall]

/-- C2 witness: in an environment where `7z` always reports on stderr with a
zero status code, the first catalog entry is skipped at hop 1 with exactly
one extraction call. -/
theorem hop1_skip_decided_by_diagnostic_witness :
    countExtractCalls (processIso envHop1Fail ("in") ("out") 0 xpEntry).events = 1 ∧
    (processIso envHop1Fail ("in") ("out") 0 xpEntry).artifacts = [] ∧
    (processIso envHop1Fail ("in") ("out") 0 xpEntry).exc = none ∧
    Event.hop1Fail (xpEntry.2.1) (xpEntry.1) ("unexpected end of archive") ∈
      (processIso envHop1Fail ("in") ("out") 0 xpEntry).events :=
  (hop1_skip_decided_by_diagnostic envHop1Fail ("in") ("out") 0
      xpEntry.1 xpEntry.2.1 xpEntry.2.2 0 ("unexpected end of archive") rfl rfl).1
    (by decide)

/-- C3: for an entry that reaches hop 2 (hop-1 stderr empty), hop-2 failure
is decided solely by the status code.  If the second `7z` call returns a
non-zero code, the entry is skipped — no artifact, no escaping exception,
and the hop-2 failure line is printed — whatever the diagnostic `s2` says.
If the code is zero, the orchestrator proceeds to the move/rename step even
when `s2` is non-empty: provided the move succeeds, the artifact is created
and the entry succeeds. -/
theorem hop2_skip_decided_by_returncode
    (env : Env) (iso_dir output_dir : String) (n : Nat) (iso container krnl : String)
    (rc1 rc2 : Int) (s2 : String)
    (hfile : env.isfile (joinPath iso_dir iso) = true)
    (h1 : env.popenRun ["7z", "e", joinPath iso_dir iso, container] (env.mkdtempName n) =
      Except.ok (rc1, ""))
    (h2 : env.popenRun ["7z", "e", joinPath (env.mkdtempName n) ((pathSplit container).2),
        krnl] (env.mkdtempName n) = Except.ok (rc2, s2)) :
    (rc2 ≠ 0 →
      (processIso env iso_dir output_dir n (iso, container, krnl)).artifacts = [] ∧
      (processIso env iso_dir output_dir n (iso, container, krnl)).exc = none ∧
      Event.hop2Fail ((pathSplit container).2) s2 ∈
        (processIso env iso_dir output_dir n (iso, container, krnl)).events) ∧
    (rc2 = 0 →
      env.move (joinPath (env.mkdtempName n) ("ntoskrnl.exe"))
          (joinPath output_dir ((splitext iso).1 ++ "_ntoskrnl.exe")) = none →
      (processIso env iso_dir output_dir n (iso, container, krnl)).artifacts =
        [joinPath output_dir ((splitext iso).1 ++ "_ntoskrnl.exe")] ∧
      Event.success iso ∈
        (processIso env iso_dir output_dir n (iso, container, krnl)).events ∧
      (processIso env iso_dir output_dir n (iso, container, krnl)).exc = none) := by
  have hsz : seven_zip_extract env (joinPath iso_dir iso) [container]
      (some (env.mkdtempName n)) = Except.ok (rc1, "") := by
    simp [seven_zip_extract, h1]
  have hz2 : seven_zip_extract env
      (joinPath (env.mkdtempName n) ((pathSplit container).2)) [krnl]
      (some (env.mkdtempName n)) = Except.ok (rc2, s2) := by
    simp [seven_zip_extract, h2]
  constructor
  · intro hne
    have hbody : attemptBody env output_dir iso (joinPath iso_dir iso) container krnl
        (env.mkdtempName n) =
        ([Event.extracting iso,
          Event.extractCall (joinPath iso_dir iso) [container] (env.mkdtempName n),
          Event.extractCall (joinPath (env.mkdtempName n) ((pathSplit container).2))
            [krnl] (env.mkdtempName n),
          Event.hop2Fail ((pathSplit container).2) s2], [], Except.ok false) := by
      simp [attemptBody, hsz, hz2, hne]
    simp [processIso, hfile, hbody]
  · intro h0 hmv
    subst h0
    have hbody : attemptBody env output_dir iso (joinPath iso_dir iso) container krnl
        (env.mkdtempName n) =
        ([Event.extracting iso,
          Event.extractCall (joinPath iso_dir iso) [container] (env.mkdtempName n),
          Event.extractCall (joinPath (env.mkdtempName n) ((pathSplit container).2))
            [krnl] (env.mkdtempName n),
          Event.moved (joinPath (env.mkdtempName n) ("ntoskrnl.exe"))
            (joinPath output_dir ((splitext iso).1 ++ "_ntoskrnl.exe"))],
         [joinPath output_dir ((splitext iso).1 ++ "_ntoskrnl.exe")],
         Except.ok true) := by
      simp [attemptBody, hsz, hz2, hmv]
    simp [processIso, hfile, hbody]

/-- C3 witness: with a zero status code and empty diagnostics everywhere,
the first catalog entry reaches the move step and the artifact is created. -/
theorem hop2_skip_decided_by_returncode_witness :
    (processIso envAllOk ("in") ("out") 0 xpEntry).artifacts =
      [joinPath ("out") ((splitext (xpEntry.1)).1 ++ "_ntoskrnl.exe")] ∧
    Event.success (xpEntry.1) ∈ (processIso envAllOk ("in") ("out") 0 xpEntry).events ∧
    (processIso envAllOk ("in") ("out") 0 xpEntry).exc = none :=
  (hop2_skip_decided_by_returncode envAllOk ("in") ("out") 0
      xpEntry.1 xpEntry.2.1 xpEntry.2.2 0 0 ("") rfl rfl rfl).2 rfl rfl

lemma ntoskrnl_map_basename :
    ∀ e ∈ NTOSKRNL_MAP, (pathSplit e.2.2).2 = "ntoskrnl.exe" := by decide

/-- C4: for a catalog entry where hop 1 and hop 2 both succeed and the move
succeeds, exactly one artifact is created in the output directory; its name
is the ISO's identifier without extension, the separator, and the target
file's base name; the file moved is the target file under its original base
name inside the workspace; and — the converse direction — whenever the entry
does not reach full success (no success line), no artifact is created. -/
theorem artifact_named_and_only_on_success
    (env : Env) (iso_dir output_dir : String) (n : Nat) (iso container krnl : String)
    (rc1 : Int) (s2 : String)
    (hmem : (iso, container, krnl) ∈ NTOSKRNL_MAP)
    (hfile : env.isfile (joinPath iso_dir iso) = true)
    (h1 : env.popenRun ["7z", "e", joinPath iso_dir iso, container] (env.mkdtempName n) =
      Except.ok (rc1, ""))
    (h2 : env.popenRun ["7z", "e", joinPath (env.mkdtempName n) ((pathSplit container).2),
        krnl] (env.mkdtempName n) = Except.ok (0, s2)) :
    (env.move (joinPath (env.mkdtempName n) ("ntoskrnl.exe"))
        (joinPath output_dir ((splitext iso).1 ++ "_ntoskrnl.exe")) = none →
      (processIso env iso_dir output_dir n (iso, container, krnl)).artifacts =
        [joinPath output_dir ((splitext iso).1 ++ "_" ++ (pathSplit krnl).2)] ∧
      Event.moved (joinPath (env.mkdtempName n) ((pathSplit krnl).2))
          (joinPath output_dir ((splitext iso).1 ++ "_" ++ (pathSplit krnl).2)) ∈
        (processIso env iso_dir output_dir n (iso, container, krnl)).events ∧
      Event.success iso ∈
        (processIso env iso_dir output_dir n (iso, container, krnl)).events ∧
      (processIso env iso_dir output_dir n (iso, container, krnl)).exc = none) ∧
    (Event.success iso ∉
        (processIso env iso_dir output_dir n (iso, container, krnl)).events →
      (processIso env iso_dir output_dir n (iso, container, krnl)).artifacts = []) := by
  have hbase : (pathSplit krnl).2 = "ntoskrnl.exe" :=
    ntoskrnl_map_basename (iso, container, krnl) hmem
  have hname : (splitext iso).1 ++ "_" ++ (pathSplit krnl).2 =
      (splitext iso).1 ++ "_ntoskrnl.exe" := by
    rw [hbase]
    simp [String.append_assoc]
  have hsz : seven_zip_extract env (joinPath iso_dir iso) [container]
      (some (env.mkdtempName n)) = Except.ok (rc1, "") := by
    simp [seven_zip_extract, h1]
  have hz2 : seven_zip_extract env
      (joinPath (env.mkdtempName n) ((pathSplit container).2)) [krnl]
      (some (env.mkdtempName n)) = Except.ok (0, s2) := by
    simp [seven_zip_extract, h2]
  constructor
  · intro hmv
    have hbody : attemptBody env output_dir iso (joinPath iso_dir iso) container krnl
        (env.mkdtempName n) =
        ([Event.extracting iso,
          Event.extractCall (joinPath iso_dir iso) [container] (env.mkdtempName n),
          Event.extractCall (joinPath (env.mkdtempName n) ((pathSplit container).2))
            [krnl] (env.mkdtempName n),
          Event.moved (joinPath (env.mkdtempName n) ("ntoskrnl.exe"))
            (joinPath output_dir ((splitext iso).1 ++ "_ntoskrnl.exe"))],
         [joinPath output_dir ((splitext iso).1 ++ "_ntoskrnl.exe")],
         Except.ok true) := by
      simp [attemptBody, hsz, hz2, hmv]
    rw [hname, hbase]
    simp [processIso, hfile, hbody]
  · intro hns
    rcases hmv : env.move (joinPath (env.mkdtempName n) ("ntoskrnl.exe"))
        (joinPath output_dir ((splitext iso).1 ++ "_ntoskrnl.exe")) with _ | e3
    · exfalso
      apply hns
      have hbody : attemptBody env output_dir iso (joinPath iso_dir iso) container krnl
          (env.mkdtempName n) =
          ([Event.extracting iso,
            Event.extractCall (joinPath iso_dir iso) [container] (env.mkdtempName n),
            Event.extractCall (joinPath (env.mkdtempName n) ((pathSplit container).2))
              [krnl] (env.mkdtempName n),
            Event.moved (joinPath (env.mkdtempName n) ("ntoskrnl.exe"))
              (joinPath output_dir ((splitext iso).1 ++ "_ntoskrnl.exe"))],
           [joinPath output_dir ((splitext iso).1 ++ "_ntoskrnl.exe")],
           Except.ok true) := by
        simp [attemptBody, hsz, hz2, hmv]
      simp [processIso, hfile, hbody]
    · have hbody : attemptBody env output_dir iso (joinPath iso_dir iso) container krnl
          (env.mkdtempName n) =
          ([Event.extracting iso,
            Event.extractCall (joinPath iso_dir iso) [container] (env.mkdtempName n),
            Event.extractCall (joinPath (env.mkdtempName n) ((pathSplit container).2))
              [krnl] (env.mkdtempName n)], [], Except.error e3) := by
        simp [attemptBody, hsz, hz2, hmv]
      simp [processIso, hfile, hbody]

/-- C4 witness: with everything succeeding, the first catalog entry yields
exactly the artifact `<identifier>_<target base name>` in the output
directory. -/
theorem artifact_named_and_only_on_success_witness :
    (processIso envAllOk ("in") ("out") 0 xpEntry).artifacts =
      [joinPath ("out") ((splitext (xpEntry.1)).1 ++ "_" ++ (pathSplit (xpEntry.2.2)).2)] ∧
    Event.moved (joinPath (envAllOk.mkdtempName 0) ((pathSplit (xpEntry.2.2)).2))
        (joinPath ("out") ((splitext (xpEntry.1)).1 ++ "_" ++ (pathSplit (xpEntry.2.2)).2)) ∈
      (processIso envAllOk ("in") ("out") 0 xpEntry).events ∧
    Event.success (xpEntry.1) ∈ (processIso envAllOk ("in") ("out") 0 xpEntry).events ∧
    (processIso envAllOk ("in") ("out") 0 xpEntry).exc = none :=
  (artifact_named_and_only_on_success envAllOk ("in") ("out") 0
      xpEntry.1 xpEntry.2.1 xpEntry.2.2 0 ("") (by decide) rfl rfl rfl).1 rfl

/-- C5 counterexample: in an environment where every ISO file is present
(four catalog entries) but `shutil.move` raises, the run aborts at the first
entry — only one entry result is produced and the move error escapes `main` —
so an entry-level failure does stop the loop early, contradicting the claim
that entry-level errors are caught at the orchestrator boundary and converted
to a skip outcome. -/
theorem entry_error_stops_loop_cex :
    NTOSKRNL_MAP.length = 4 ∧
    (runMain envMoveFail).1.length = 1 ∧
    (runMain envMoveFail).2 = some (PyExc.oserror ("move failed")) := by decide

/-- C5 amended: the three skip outcomes (ISO not found, hop-1 diagnostic,
hop-2 status) never stop the loop — an iteration that ends without an
escaping exception is followed by all remaining entries — but an exception
raised while processing one entry (e.g. a failing `shutil.move` or a failing
subprocess launch) is not caught anywhere in `main`: it aborts the loop,
leaving the remaining entries unattempted. -/
theorem loop_abort_characterization
    (env : Env) (iso_dir output_dir : String) (n : Nat)
    (e : String × String × String) (rest : List (String × String × String)) :
    ((processIso env iso_dir output_dir n e).exc = none →
      runEntries env iso_dir output_dir (e :: rest) n =
        (processIso env iso_dir output_dir n e ::
           (runEntries env iso_dir output_dir rest
             (n + (processIso env iso_dir output_dir n e).workspacesCreated.length)).1,
         (runEntries env iso_dir output_dir rest
             (n + (processIso env iso_dir output_dir n e).workspacesCreated.length)).2)) ∧
    ((processIso env iso_dir output_dir n e).exc ≠ none →
      runEntries env iso_dir output_dir (e :: rest) n =
        ([processIso env iso_dir output_dir n e],
         (processIso env iso_dir output_dir n e).exc)) := by
  constructor
  · intro h
    simp [runEntries, h]
  · intro h
    rcases hx : (processIso env iso_dir output_dir n e).exc with _ | x
    · exact absurd hx h
    · simp [runEntries, hx]

/-- C5 amended witness: on an all-succeeding environment the first entry ends
without an exception and the loop goes on to the rest of the catalog. -/
theorem loop_abort_characterization_witness :
    runEntries envAllOk ("in") ("out") (xpEntry :: []) 0 =
      (processIso envAllOk ("in") ("out") 0 xpEntry ::
         (runEntries envAllOk ("in") ("out") []
           (0 + (processIso envAllOk ("in") ("out") 0 xpEntry).workspacesCreated.length)).1,
       (runEntries envAllOk ("in") ("out") []
           (0 + (processIso envAllOk ("in") ("out") 0 xpEntry).workspacesCreated.length)).2) :=
  (loop_abort_characterization envAllOk ("in") ("out") 0 xpEntry []).1 (by decide)

/-- C8 counterexample: with the `7z` executable absent (every subprocess
launch raises) and every ISO present, the run does abort with the launch
error — but only after the first entry's attempt has already begun: the sole
entry result produced has a workspace acquired and the extraction primitive
invoked.  This contradicts the claim that the absence of the tool aborts the
run before any entry is attempted. -/
theorem missing_tool_not_prechecked_cex :
    (runMain envNo7z).2 = some (PyExc.oserror ("No such file or directory: 7z")) ∧
    (runMain envNo7z).1.length = 1 ∧
    ((runMain envNo7z).1.all fun r => !r.workspacesCreated.isEmpty) = true ∧
    ((runMain envNo7z).1.all fun r => countExtractCalls r.events = 1) = true := by decide

/-- C8 amended: absence of the external extraction tool is not checked
before the loop; the run proceeds normally until the first entry whose ISO
file exists, which acquires a workspace and invokes the extraction
primitive; the launch failure then escapes that iteration uncaught — it is
never converted to a per-entry skip — and aborts the remainder of the run. -/
theorem missing_tool_uncaught_abort
    (env : Env) (iso_dir output_dir : String) (n : Nat) (iso container krnl : String)
    (rest : List (String × String × String)) (e0 : PyExc)
    (h7z : ∀ a w, env.popenRun a w = Except.error e0)
    (hfile : env.isfile (joinPath iso_dir iso) = true) :
    (processIso env iso_dir output_dir n (iso, container, krnl)).exc = some e0 ∧
    (processIso env iso_dir output_dir n (iso, container, krnl)).workspacesCreated =
      [env.mkdtempName n] ∧
    runEntries env iso_dir output_dir ((iso, container, krnl) :: rest) n =
      ([processIso env iso_dir output_dir n (iso, container, krnl)], some e0) := by
  have hbody : attemptBody env output_dir iso (joinPath iso_dir iso) container krnl
      (env.mkdtempName n) =
      ([Event.extracting iso,
        Event.extractCall (joinPath iso_dir iso) [container] (env.mkdtempName n)],
       [], Except.error e0) := by
    simp [attemptBody, seven_zip_extract, h7z]
  have hp : (processIso env iso_dir output_dir n (iso, container, krnl)).exc = some e0 ∧
      (processIso env iso_dir output_dir n (iso, container, krnl)).workspacesCreated =
        [env.mkdtempName n] := by
    constructor <;> simp [processIso, hfile, hbody]
  refine ⟨hp.1, hp.2, ?_⟩
  simp [runEntries, hp.1]

/-- C8 amended witness: instantiation at the concrete tool-absent
environment and the first catalog entry. -/
theorem missing_tool_uncaught_abort_witness :
    (processIso envNo7z ("in") ("out") 0 xpEntry).exc =
      some (PyExc.oserror ("No such file or directory: 7z")) ∧
    (processIso envNo7z ("in") ("out") 0 xpEntry).workspacesCreated =
      [envNo7z.mkdtempName 0] ∧
    runEntries envNo7z ("in") ("out") (xpEntry :: []) 0 =
      ([processIso envNo7z ("in") ("out") 0 xpEntry],
       some (PyExc.oserror ("No such file or directory: 7z"))) :=
  missing_tool_uncaught_abort envNo7z ("in") ("out") 0
    xpEntry.1 xpEntry.2.1 xpEntry.2.2 [] _ (fun _ _ => rfl) rfl

lemma attemptBody_congr (env1 env2 : Env)
    (hpop : env1.popenRun = env2.popenRun) (hmove : env1.move = env2.move)
    (o i ip c k t : String) :
    attemptBody env1 o i ip c k t = attemptBody env2 o i ip c k t := by
  simp only [attemptBody, seven_zip_extract, hpop, hmove, Option.getD_some]

lemma processIso_congr (env1 env2 : Env)
    (hisf : env1.isfile = env2.isfile) (hpop : env1.popenRun = env2.popenRun)
    (hmove : env1.move = env2.move) (hmk : env1.mkdtempName = env2.mkdtempName)
    (d o : String) (n : Nat) (e : String × String × String) :
    (processIso env1 d o n e).exc = (processIso env2 d o n e).exc ∧
    (processIso env1 d o n e).artifacts = (processIso env2 d o n e).artifacts ∧
    (processIso env1 d o n e).workspacesCreated =
      (processIso env2 d o n e).workspacesCreated := by
  have hb := attemptBody_congr env1 env2 hpop hmove o e.1 (joinPath d e.1) e.2.1 e.2.2
    (env2.mkdtempName n)
  simp only [processIso, hisf, hmk, hb]
  rcases hx : (attemptBody env2 o e.1 (joinPath d e.1) e.2.1 e.2.2
      (env2.mkdtempName n)).2.2 with er | b
  · by_cases hf : env2.isfile (joinPath d e.1) <;> simp [hf, hx]
  · cases b <;> (by_cases hf : env2.isfile (joinPath d e.1) <;> simp [hf, hx])

lemma runEntries_congr (env1 env2 : Env)
    (hisf : env1.isfile = env2.isfile) (hpop : env1.popenRun = env2.popenRun)
    (hmove : env1.move = env2.move) (hmk : env1.mkdtempName = env2.mkdtempName)
    (d o : String) (es : List (String × String × String)) (n : Nat) :
    (runEntries env1 d o es n).2 = (runEntries env2 d o es n).2 ∧
    (runEntries env1 d o es n).1.length = (runEntries env2 d o es n).1.length := by
  induction es generalizing n with
  | nil => exact ⟨rfl, rfl⟩
  | cons e es ih =>
    have hp := processIso_congr env1 env2 hisf hpop hmove hmk d o n e
    rcases hx : (processIso env2 d o n e).exc with _ | x
    · have hx1 : (processIso env1 d o n e).exc = none := by rw [hp.1, hx]
      have ih2 := ih (n + (processIso env2 d o n e).workspacesCreated.length)
      constructor
      · simp only [runEntries, hx, hx1]
        rw [hp.2.2]
        exact ih2.1
      · simp only [runEntries, hx, hx1, List.length_cons]
        rw [hp.2.2]
        rw [ih2.2]
    · have hx1 : (processIso env1 d o n e).exc = some x := by rw [hp.1, hx]
      constructor <;> simp [runEntries, hx, hx1]

/-- C9: a failing recursive deletion is reported as a diagnostic and never
propagates — `cleanup` returns normally with `_closed` still unset and prints
the error line — and because no part of an iteration other than `cleanup`
consults `rmtree`, the entry's outcome (escaping exception and artifacts)
and the run's progression (final exception, number of entries attempted) are
identical between two environments that differ arbitrarily in `rmtree`
behaviour.  Additionally the end-of-life call (`__del__`, which invokes
`cleanup` with `warn=True`) prints the implicit-cleanup warning exactly when
it is the call that actually removes the directory. -/
theorem cleanup_failure_nonfatal
    (env1 env2 : Env) (d o : String) (n : Nat) (e : String × String × String)
    (es : List (String × String × String))
    (rm rm2 : String → Bool) (nm : String)
    (hnm : nm ≠ "") (hfail : rm nm = false) (hok : rm2 nm = true)
    (hisf : env1.isfile = env2.isfile) (hpop : env1.popenRun = env2.popenRun)
    (hmove : env1.move = env2.move) (hmk : env1.mkdtempName = env2.mkdtempName) :
    TemporaryDirectory.cleanup rm ⟨some nm, false⟩ false =
      ⟨⟨some nm, false⟩, [ConsoleMsg.cleanupError nm], true, false⟩ ∧
    (processIso env1 d o n e).exc = (processIso env2 d o n e).exc ∧
    (processIso env1 d o n e).artifacts = (processIso env2 d o n e).artifacts ∧
    (runEntries env1 d o es 0).2 = (runEntries env2 d o es 0).2 ∧
    (runEntries env1 d o es 0).1.length = (runEntries env2 d o es 0).1.length ∧
    TemporaryDirectory.cleanup rm2 ⟨some nm, false⟩ true =
      ⟨⟨some nm, true⟩, [ConsoleMsg.implicitCleanup nm], true, true⟩ := by
  have hp := processIso_congr env1 env2 hisf hpop hmove hmk d o n e
  have hr := runEntries_congr env1 env2 hisf hpop hmove hmk d o es 0
  refine ⟨?_, hp.1, hp.2.1, hr.1, hr.2, ?_⟩
  · simp [TemporaryDirectory.cleanup, hnm, hfail]
  · simp [TemporaryDirectory.cleanup, hnm, hok]

/-- C9 witness: instantiation at the all-succeeding environment versus the
same environment with failing `rmtree`, on the full catalog. -/
theorem cleanup_failure_nonfatal_witness :
    TemporaryDirectory.cleanup (fun _ => false) ⟨some ("/tmp/ws0"), false⟩ false =
      ⟨⟨some ("/tmp/ws0"), false⟩, [ConsoleMsg.cleanupError ("/tmp/ws0")], true, false⟩ ∧
    (processIso envRmFail ("in") ("out") 0 xpEntry).exc =
      (processIso envAllOk ("in") ("out") 0 xpEntry).exc ∧
    (processIso envRmFail ("in") ("out") 0 xpEntry).artifacts =
      (processIso envAllOk ("in") ("out") 0 xpEntry).artifacts ∧
    (runEntries envRmFail ("in") ("out") NTOSKRNL_MAP 0).2 =
      (runEntries envAllOk ("in") ("out") NTOSKRNL_MAP 0).2 ∧
    (runEntries envRmFail ("in") ("out") NTOSKRNL_MAP 0).1.length =
      (runEntries envAllOk ("in") ("out") NTOSKRNL_MAP 0).1.length ∧
    TemporaryDirectory.cleanup (fun _ => true) ⟨some ("/tmp/ws0"), false⟩ true =
      ⟨⟨some ("/tmp/ws0"), true⟩, [ConsoleMsg.implicitCleanup ("/tmp/ws0")], true, true⟩ :=
  cleanup_failure_nonfatal envRmFail envAllOk ("in") ("out") 0 xpEntry NTOSKRNL_MAP
    (fun _ => false) (fun _ => true) ("/tmp/ws0") (by decide) rfl rfl rfl rfl rfl rfl

/-- C10: cleanup is idempotent.  Once `_closed` is set (which happens exactly
when a cleanup call succeeds in removing the directory), every later
`cleanup` call on the same handle — the finalizer-triggered one included —
neither attempts any deletion nor prints anything and leaves the state
untouched; and the implicit-cleanup warning appears in a call's output
exactly when that call was invoked with `warn` and itself removed the
directory. -/
theorem cleanup_idempotent
    (rm : String → Bool) (s : TemporaryDirectory) (w : Bool) (nm : String)
    (hname : s.name = some nm) (hnm : nm ≠ "") :
    (s.closed = true → TemporaryDirectory.cleanup rm s w = ⟨s, [], false, false⟩) ∧
    (s.closed = false → rm nm = true →
      TemporaryDirectory.cleanup rm s w =
        ⟨⟨some nm, true⟩, if w then [ConsoleMsg.implicitCleanup nm] else [], true, true⟩) ∧
    (ConsoleMsg.implicitCleanup nm ∈ (TemporaryDirectory.cleanup rm s w).output ↔
      w = true ∧ s.closed = false ∧ rm nm = true) := by
  obtain ⟨na, cl⟩ := s
  simp only [TemporaryDirectory.name] at hname
  subst hname
  refine ⟨?_, ?_, ?_⟩
  · intro hc
    simp only [TemporaryDirectory.closed] at hc
    subst hc
    simp [TemporaryDirectory.cleanup]
  · intro hc hrm
    simp only [TemporaryDirectory.closed] at hc
    subst hc
    simp [TemporaryDirectory.cleanup, hnm, hrm]
  · cases cl
    · rcases hrm : rm nm with _ | _
      · cases w <;> simp [TemporaryDirectory.cleanup, hnm, hrm]
      · cases w <;> simp [TemporaryDirectory.cleanup, hnm, hrm]
    · cases w <;> simp [TemporaryDirectory.cleanup]

/-- C10 witness: on an already-closed handle a further (finalizer-style)
cleanup call does nothing and prints nothing. -/
theorem cleanup_idempotent_witness :
    TemporaryDirectory.cleanup (fun _ => true) ⟨some ("/tmp/ws0"), true⟩ true =
      ⟨⟨some ("/tmp/ws0"), true⟩, [], false, false⟩ :=
  (cleanup_idempotent (fun _ => true) ⟨some ("/tmp/ws0"), true⟩ true ("/tmp/ws0")
      rfl (by decide)).1 rfl
